import Mathlib

/-!
Verification of the travel-assistant repository's interruption / session-run
coordination core and its client event handling.

The repository's checked-in sources are the React frontend
(`frontend/src/components`, `hooks/useWebSocket.ts`, `App.tsx`, `types.ts`)
and the project README.  The Python backend (FastAPI `main.py`, the run
registry, the LangGraph pipeline and the preference service) is documented in
the README and the design spec but its source files are not part of the
checked-in tree; definitions for backend behaviour are therefore modelled
from the spec and are marked `Modelled from the spec:` in their doc comments.

Frontend definitions are direct shallow embeddings of the TypeScript source:
* `types.ts` data declarations become structures / inductives below
  (TypeScript `number` is abstracted to `Int`: no claim depends on numeric
  semantics; the optional `is_partial` field is `isPartial : Option Bool`,
  `none` standing for `undefined`, which is falsy in the rendering checks);
* `App.tsx`'s `handleWebSocketMessage` and `handleSendMessage` become state
  transformers on `AppState` (the `fresh` and `now` arguments stand for the
  nondeterministic `Math.random().toString(36)` identifier and `Date.now()`);
* `MessageList.tsx`'s badge logic becomes `getStatusBadge`,
  `flightPartialHeaderShown`, `hotelPartialHeaderShown`, `cardPartialShown`.
-/

namespace Travel

/-- Message sender, from `types.ts`: `sender: 'user' | 'assistant'`. -/
inductive Sender where
  | user
  | assistant
deriving DecidableEq

/-- Chat message, from `types.ts` `Message`. -/
structure Message where
  id : String
  sender : Sender
  text : String
  timestamp : Nat
deriving DecidableEq

/-- One leg of a multi-leg flight, from `types.ts` `FlightSegment`. -/
structure FlightSegment where
  airline : String
  flight_number : Option String
  origin : String
  destination : String
  departure_time : String
  arrival_time : String
  duration_minutes : Int
  origin_coordinates : Option (Int × Int)
  destination_coordinates : Option (Int × Int)
  aircraft : Option String
deriving DecidableEq

/-- Layover between segments, from `types.ts` `FlightLayover`. -/
structure FlightLayover where
  city : String
  duration_minutes : Int
deriving DecidableEq

/-- Flight search result, from `types.ts` `FlightResult`.  The source's
optional `is_partial` flag is `isPartial` here. -/
structure FlightResult where
  id : String
  airline : String
  flight_number : String
  origin : String
  destination : String
  departure_time : String
  arrival_time : String
  duration_minutes : Int
  stops : Int
  price : Int
  currency : String
  booking_link : Option String
  isPartial : Option Bool
  origin_coordinates : Option (Int × Int)
  destination_coordinates : Option (Int × Int)
  segments : Option (List FlightSegment)
  layovers : Option (List FlightLayover)
  total_journey_duration : Option Int
deriving DecidableEq

/-- Hotel search result, from `types.ts` `HotelResult`.  The source's
optional `is_partial` flag is `isPartial` here. -/
structure HotelResult where
  id : String
  name : String
  city : String
  star_rating : Int
  review_score : Int
  review_count : Int
  price_per_night : Int
  currency : String
  amenities : List String
  booking_link : Option String
  isPartial : Option Bool
  coordinates : Option (Int × Int)
  images : Option (List String)
  image_url : Option String
deriving DecidableEq

/-- Learned preference, from `types.ts` `PreferenceItem` (the `confidence`
number is abstracted to `Int`). -/
structure PreferenceItem where
  category : String
  value : String
  confidence : Int
  source_message : Option String
  timestamp : Nat
deriving DecidableEq

/-- Push-channel event, from the `types.ts` union `WebSocketEvent`.  Note the
union declares eight alternatives: the seven documented kinds and `echo`. -/
inductive WsEvent where
  | status (status : String) (session_id : String)
  | message (sender : Sender) (text : String) (session_id : String)
      (request_id : Option String)
  | flight_results (results : List FlightResult) (session_id : String)
  | hotel_results (results : List HotelResult) (session_id : String)
  | error (error : String) (session_id : String)
  | preference_update (category : String) (value : String) (session_id : String)
  | preferences_cleared (session_id : String)
  | echo (data : String)
deriving DecidableEq

/-- The `type` discriminant string of an event, as written in `types.ts`. -/
def eventKind : WsEvent → String
  | .status _ _ => "status"
  | .message _ _ _ _ => "message"
  | .flight_results _ _ => "flight_results"
  | .hotel_results _ _ => "hotel_results"
  | .error _ _ => "error"
  | .preference_update _ _ _ => "preference_update"
  | .preferences_cleared _ => "preferences_cleared"
  | .echo _ => "echo"

/-- Every `type` value the `types.ts` `WebSocketEvent` union declares, in
declaration order. -/
def webSocketEventKinds : List String :=
  ["status", "message", "flight_results", "hotel_results", "error",
   "preference_update", "preferences_cleared", "echo"]

/-- The event kinds the spec's Status Publisher section lists (spec section
4.4): the client union's kinds minus `echo`. -/
def specEventKinds : List String :=
  ["status", "message", "flight_results", "hotel_results", "error",
   "preference_update", "preferences_cleared"]

/-- The status values the spec lists for `status` events (spec section 4.4). -/
def specStatusValues : List String :=
  ["processing", "cancelling_previous", "cancelled", "completed"]

/-- Client state handled by `handleWebSocketMessage` in `App.tsx`: the
`messages`, `flightResults`, `hotelResults` and `status` pieces of React
state.  (Purely visual state such as the theme, the preferences panel and the
booking modal is not part of the claims and is not modelled.) -/
structure AppState where
  messages : List Message
  flightResults : List FlightResult
  hotelResults : List HotelResult
  status : String
deriving DecidableEq

/-- `App.tsx` `handleWebSocketMessage`, as a state transformer.  `fresh`
stands for the `Math.random().toString(36)` identifier minted in the
handler and `now` for `Date.now()`.  The `message` case keeps the event's
`request_id` when it is truthy (`event.request_id || Math.random...`), and
appends only when `event.sender === 'assistant'`.  `flight_results` and
`hotel_results` replace the whole corresponding list with the event payload.
`error` appends an assistant message `"Error: " ++ error`.  The
`preference_update` and `preferences_cleared` cases only re-fetch the
preferences panel data (no change to the modelled state), and `echo` falls
through to the unhandled default case. -/
def handleWebSocketMessage (s : AppState) (fresh : String) (now : Nat) :
    WsEvent → AppState
  | .status v _ => { s with status := v }
  | .message sender text _ request_id =>
      match sender with
      | .assistant =>
          let msgId :=
            match request_id with
            | some r => if r = "" then fresh else r
            | none => fresh
          { s with
            messages := s.messages ++
              [{ id := msgId, sender := .assistant, text := text,
                 timestamp := now }] }
      | .user => s
  | .flight_results results _ => { s with flightResults := results }
  | .hotel_results results _ => { s with hotelResults := results }
  | .error err _ =>
      { s with
        messages := s.messages ++
          [{ id := fresh, sender := .assistant,
             text := "Error: " ++ err, timestamp := now }] }
  | .preference_update _ _ _ => s
  | .preferences_cleared _ => s
  | .echo _ => s

/-- `App.tsx` `handleSendMessage`: the user's own message is appended to the
visible conversation locally at send time (the HTTP POST to the backend is
an external effect). -/
def handleSendMessage (s : AppState) (fresh : String) (now : Nat)
    (text : String) : AppState :=
  { s with
    messages := s.messages ++
      [{ id := fresh, sender := .user, text := text, timestamp := now }] }

/-- `MessageList.tsx` `getStatusBadge`: the badge text rendered for a status
value, `none` when the function returns `null`. -/
def getStatusBadge (status : String) : Option String :=
  if status = "processing" then some "Processing request..."
  else if status = "cancelling_previous" then some "Interrupted - Updating..."
  else if status = "cancelled" then some "Search Cancelled"
  else if status = "completed" then some "Search Completed"
  else none

/-- `MessageList.tsx` flight header: the list-level PARTIAL RESULTS badge is
rendered exactly when the results list is non-empty (the whole section is
guarded by `flightResults.length > 0`) and `flightResults[0].is_partial` is
truthy. -/
def flightPartialHeaderShown (flightResults : List FlightResult) : Bool :=
  match flightResults with
  | [] => false
  | r :: _ => (FlightResult.isPartial r).getD false

/-- `MessageList.tsx` hotel header: the list-level PARTIAL RESULTS badge is
rendered exactly when the results list is non-empty and
`hotelResults[0].is_partial` is truthy. -/
def hotelPartialHeaderShown (hotelResults : List HotelResult) : Bool :=
  match hotelResults with
  | [] => false
  | r :: _ => (HotelResult.isPartial r).getD false

/-- `MessageList.tsx` per-card badge: each flight card renders its own
PARTIAL corner badge exactly when that card's `is_partial` is truthy. -/
def cardPartialShown (flight : FlightResult) : Bool :=
  (FlightResult.isPartial flight).getD false

/-- Modelled from the spec: one turn of `conversation_history` (spec
section 3: "ordered sequence of turns (sender, text, timestamp)"). -/
structure ConversationTurn where
  sender : Sender
  text : String
  timestamp : Nat
deriving DecidableEq

/-- Modelled from the spec: the per-session `SharedState` of the backend
Session Store (spec section 3 and the README's SharedState listing); the
backend source file holding it is not in the checked-in tree.  The
collaborator-derived `flight_params` / `hotel_params` payloads are opaque
here and modelled as strings. -/
structure SharedState where
  conversation_history : List ConversationTurn
  user_preferences : List PreferenceItem
  flight_params : Option String
  hotel_params : Option String
  flight_results : List FlightResult
  hotel_results : List HotelResult
  selected_flight_id : Option String
  selected_hotel_id : Option String
  is_interrupted : Bool
  current_run_id : Option String
  pending_flight_booking : Option String
  pending_hotel_booking : Option String
deriving DecidableEq

/-- Modelled from the spec: the operations that mutate a session's
`SharedState` (spec sections 3, 4.2 and 4.3).  `interrupt` is the
coordinator's steps 2-3 on detecting an active run; `startRun` its steps
5-6; `publishFlightResults` / `publishHotelResults` a run's wholesale
result replacement; the remaining constructors are the explicit user
selection / booking / preference actions. -/
inductive SessionAction where
  | interrupt
  | appendTurn (turn : ConversationTurn)
  | startRun (run_id : String)
  | publishFlightResults (results : List FlightResult)
  | publishHotelResults (results : List HotelResult)
  | learnPreference (item : PreferenceItem)
  | selectFlight (flight_id : Option String)
  | selectHotel (hotel_id : Option String)
  | requestFlightBooking (booking_id : String)
  | requestHotelBooking (booking_id : String)
  | completeFlightBooking
  | completeHotelBooking
deriving DecidableEq

/-- The explicit user selection / booking actions: the only actions the spec
allows to change `selected_*` / `pending_*_booking` (a successful booking
completion clears the pending identifier). -/
def isSelectionOrBookingAction : SessionAction → Bool
  | .selectFlight _ => true
  | .selectHotel _ => true
  | .requestFlightBooking _ => true
  | .requestHotelBooking _ => true
  | .completeFlightBooking => true
  | .completeHotelBooking => true
  | _ => false

/-- The interruption / result-replacement actions quantified over by the
spec's "Selection survival" and "Result replacement" properties. -/
def isInterruptionOrReplacement : SessionAction → Bool
  | .interrupt => true
  | .publishFlightResults _ => true
  | .publishHotelResults _ => true
  | _ => false

/-- Modelled from the spec: the session-state transition rules.
`interrupt` sets `is_interrupted`, clears `flight_results`,
`hotel_results`, `flight_params`, `hotel_params` and nothing else (spec
section 4.2 steps 2-3, README "State Preservation During Cancellation");
`startRun` clears `is_interrupted` and installs the fresh `run_id`; result
publication replaces the corresponding list wholesale (spec section 3:
"entirely replaced (not merged) by each new run"). -/
def applySessionAction (s : SharedState) : SessionAction → SharedState
  | .interrupt =>
      { s with
        is_interrupted := true
        flight_results := []
        hotel_results := []
        flight_params := none
        hotel_params := none }
  | .appendTurn turn =>
      { s with conversation_history := s.conversation_history ++ [turn] }
  | .startRun rid =>
      { s with is_interrupted := false, current_run_id := some rid }
  | .publishFlightResults rs => { s with flight_results := rs }
  | .publishHotelResults rs => { s with hotel_results := rs }
  | .learnPreference item =>
      { s with user_preferences := s.user_preferences ++ [item] }
  | .selectFlight fid => { s with selected_flight_id := fid }
  | .selectHotel hid => { s with selected_hotel_id := hid }
  | .requestFlightBooking bid => { s with pending_flight_booking := some bid }
  | .requestHotelBooking bid => { s with pending_hotel_booking := some bid }
  | .completeFlightBooking => { s with pending_flight_booking := none }
  | .completeHotelBooking => { s with pending_hotel_booking := none }

/-- A whole sequence of session actions, applied left to right. -/
def applySessionActions (s : SharedState) (acts : List SessionAction) :
    SharedState :=
  acts.foldl applySessionAction s

/-- Modelled from the spec: a Run Registry entry (spec section 4.1 and the
README's `ActiveRun` model; the README's `agent_type` is not needed by any
claim and is left out). -/
structure ActiveRun where
  run_id : String
  session_id : String
  started_at : Nat
  cancellation_requested : Bool
deriving DecidableEq

/-- Pointwise update of a map keyed by session id. -/
def setEntry (runs : String → Option ActiveRun) (sid : String)
    (v : Option ActiveRun) : String → Option ActiveRun :=
  fun s => if s = sid then v else runs s

/-- Modelled from the spec: the Run Registry's shared state.  `runs` is the
process-wide map from session id to the active run (the README's
`active_runs` dictionary); `taskAlive` records, per run id, whether the
underlying execution context is still running (the README's `active_tasks`
dictionary, reduced to liveness, which is all the cancellation contract
speaks about). -/
structure RegistryState where
  runs : String → Option ActiveRun
  taskAlive : String → Bool

/-- Modelled from the spec: `requestCancel`'s result (spec section 4.1). -/
inductive CancelOutcome where
  | no_active_run
  | cancelled_cleanly
  | timed_out
deriving DecidableEq

/-- Modelled from the spec: the registry's only failure (spec section 7). -/
inductive RegError where
  | conflict
deriving DecidableEq

/-- Modelled from the spec: `register(session_id, run_handle)` fails with
`ConflictError` when an entry already exists for the session (spec
section 4.1). -/
def registerRun (runs : String → Option ActiveRun) (sid : String)
    (run : ActiveRun) : Except RegError (String → Option ActiveRun) :=
  match runs sid with
  | some _ => .error .conflict
  | none => .ok (setEntry runs sid (some run))

/-- The grace period the Interruption Coordinator passes to `requestCancel`
(spec section 4.2 step 2: 2000 ms; the README's `asyncio.wait_for(...,
timeout=2.0)`). -/
def coordinatorGracePeriodMs : Nat := 2000

/-- Modelled from the spec: `requestCancel(session_id, grace_period)` (spec
section 4.1).  Real-time waiting is not shallowly embeddable, so the wait's
outcome is abstracted by `deregistersWithinGrace`: whether the signalled run
observes its cancellation flag and deregisters itself within `gracePeriodMs`.
When it does, the entry is gone and the run's task has exited; when it does
not, the entry is forcibly removed but the task is left untouched (it is
only disowned, not killed).  With no registered run the registry is
unchanged. -/
def requestCancel (st : RegistryState) (sid : String) (gracePeriodMs : Nat)
    (deregistersWithinGrace : Bool) : CancelOutcome × RegistryState :=
  match st.runs sid with
  | none => (.no_active_run, st)
  | some run =>
      if deregistersWithinGrace then
        (.cancelled_cleanly,
         { runs := setEntry st.runs sid none,
           taskAlive := fun r => if r = run.run_id then false else st.taskAlive r })
      else
        (.timed_out, { st with runs := setEntry st.runs sid none })

/-- Modelled from the spec: the Status Publisher's event kinds for one
session (spec section 4.4). -/
inductive Event where
  | status (value : String)
  | message (sender : Sender) (text : String)
  | flight_results (results : List FlightResult)
  | hotel_results (results : List HotelResult)
  | error (message : String)
  | preference_update (category : String) (value : String)
  | preferences_cleared
deriving DecidableEq

/-- Whether a published event is an `error` event. -/
def Event.isError : Event → Bool
  | .error _ => true
  | _ => false

/-- Modelled from the spec: the coordinator's view of one session: the Run
Registry plus that session's Session Store entry. -/
structure CoordState where
  registry : RegistryState
  session : SharedState

/-- Modelled from the spec: the Interruption Coordinator's per-message
algorithm (spec section 4.2, steps 1-7; step 8, executing the new run, is
asynchronous and modelled separately by the publish functions below).
When a run is registered for the session it sets `is_interrupted`, calls
`requestCancel` with the 2000 ms grace period and publishes
`status: cancelling_previous`; it then clears results and params, appends
the inbound turn, registers the fresh run, installs the new `run_id`,
clears `is_interrupted` and publishes `status: processing`.  A
`ConflictError` from `register` propagates as the `Except.error` case. -/
def submitMessage (cs : CoordState) (sid : String) (turn : ConversationTurn)
    (newRun : ActiveRun) (deregistersWithinGrace : Bool) :
    Except RegError (CoordState × List Event) :=
  let step2 :=
    match cs.registry.runs sid with
    | some _ =>
        let s1 := { cs.session with is_interrupted := true }
        let c := requestCancel cs.registry sid coordinatorGracePeriodMs
          deregistersWithinGrace
        (c.2, s1, [Event.status "cancelling_previous"])
    | none => (cs.registry, cs.session, [])
  let registry1 := step2.1
  let session2 :=
    { step2.2.1 with
      flight_results := []
      hotel_results := []
      flight_params := none
      hotel_params := none }
  let session3 :=
    { session2 with
      conversation_history := session2.conversation_history ++ [turn] }
  match registerRun registry1.runs sid newRun with
  | .error e => .error e
  | .ok runs2 =>
      let session4 :=
        { session3 with
          is_interrupted := false
          current_run_id := some newRun.run_id }
      .ok ({ registry := { registry1 with runs := runs2 }, session := session4 },
           step2.2.2 ++ [Event.status "processing"])

/-- Modelled from the spec: a run publishing its flight results.  The write
is accepted only when the run still owns the session (its `run_id` matches
`current_run_id`); a disowned run's late write is detected by the mismatch
and silently dropped, publishing nothing (spec sections 4.1 and 7,
`StaleRunWrite`). -/
def publishRunFlightResults (cs : CoordState) (rid : String)
    (rs : List FlightResult) : CoordState × List Event :=
  if cs.session.current_run_id = some rid then
    ({ cs with session := { cs.session with flight_results := rs } },
     [Event.flight_results rs])
  else (cs, [])

/-- Modelled from the spec: a run publishing its hotel results, with the
same stale-write rejection as `publishRunFlightResults`. -/
def publishRunHotelResults (cs : CoordState) (rid : String)
    (rs : List HotelResult) : CoordState × List Event :=
  if cs.session.current_run_id = some rid then
    ({ cs with session := { cs.session with hotel_results := rs } },
     [Event.hotel_results rs])
  else (cs, [])

/-- Modelled from the spec: the outcome of one search stage of a combined
run; a failed collaborator call leaves whatever results the stage had
produced before failing (spec section 4.3). -/
inductive StageOutcome (α : Type) where
  | ok (results : List α)
  | failed (partialSoFar : List α)
deriving DecidableEq

/-- Mark every flight result of a failed stage with `is_partial = true`. -/
def markPartialFlights (rs : List FlightResult) : List FlightResult :=
  rs.map (fun r => { r with isPartial := some true })

/-- Mark every hotel result of a failed stage with `is_partial = true`. -/
def markPartialHotels (rs : List HotelResult) : List HotelResult :=
  rs.map (fun r => { r with isPartial := some true })

/-- The error text published when both stages of a combined request fail. -/
def combinedFailureMessage : String :=
  "Both the flight and the hotel search failed."

/-- Modelled from the spec: the events a combined flight+hotel run publishes
from its two search stages (spec section 4.3).  A single collaborator
failure is absorbed: the failed stage's result set is marked
`is_partial = true` and published as-is.  Only when both stages fail is an
`error` event published instead of an empty success. -/
def combinedRunEvents (f : StageOutcome FlightResult)
    (h : StageOutcome HotelResult) : List Event :=
  match f, h with
  | .failed _, .failed _ => [Event.error combinedFailureMessage]
  | .ok fs, .ok hs => [Event.flight_results fs, Event.hotel_results hs]
  | .failed fp, .ok hs =>
      [Event.flight_results (markPartialFlights fp), Event.hotel_results hs]
  | .ok fs, .failed hp =>
      [Event.flight_results fs, Event.hotel_results (markPartialHotels hp)]

/-- Modelled from the spec: `clearPreferences(session_id)` (spec section 6;
the DELETE endpoint `handleClearPreferences` calls in
`PreferencesPanel.tsx`).  It empties the learned preference set, publishes
`preferences_cleared`, and never fails. -/
def clearPreferencesEndpoint (s : SharedState) :
    Except String (SharedState × Event) :=
  Except.ok ({ s with user_preferences := [] }, Event.preferences_cleared)

/-! ## Concrete sample values, used by the witnesses below. -/

/-- A sample session holding a selection and a pending booking. -/
def sampleSession : SharedState :=
  { conversation_history := []
    user_preferences := []
    flight_params := none
    hotel_params := none
    flight_results := []
    hotel_results := []
    selected_flight_id := some "F1"
    selected_hotel_id := some "H1"
    is_interrupted := false
    current_run_id := some "runA"
    pending_flight_booking := some "BF1"
    pending_hotel_booking := none }

/-- A sample flight result. -/
def sampleFlight : FlightResult :=
  { id := "FL1"
    airline := "United"
    flight_number := "UA100"
    origin := "JFK"
    destination := "LHR"
    departure_time := "2025-01-01T08:00"
    arrival_time := "2025-01-01T20:00"
    duration_minutes := 420
    stops := 0
    price := 500
    currency := "USD"
    booking_link := none
    isPartial := none
    origin_coordinates := none
    destination_coordinates := none
    segments := none
    layovers := none
    total_journey_duration := none }

/-- A sample hotel result. -/
def sampleHotel : HotelResult :=
  { id := "HO1"
    name := "Hilton Paris"
    city := "Paris"
    star_rating := 5
    review_score := 9
    review_count := 120
    price_per_night := 200
    currency := "USD"
    amenities := ["wifi", "pool"]
    booking_link := none
    isPartial := none
    coordinates := none
    images := none
    image_url := none }

/-- The registry map with no entries. -/
def emptyRuns : String → Option ActiveRun := fun _ => none

/-- A sample active run for session `"S"`. -/
def sampleRunA : ActiveRun :=
  { run_id := "runA", session_id := "S", started_at := 0,
    cancellation_requested := false }

/-- A second sample run for session `"S"`, with a fresh run id. -/
def sampleRunB : ActiveRun :=
  { run_id := "runB", session_id := "S", started_at := 1,
    cancellation_requested := false }

/-- A sample registry with `sampleRunA` registered for `"S"`. -/
def sampleRegistry : RegistryState :=
  { runs := setEntry emptyRuns "S" (some sampleRunA)
    taskAlive := fun _ => true }

/-- A sample coordinator state: `sampleRunA` active and owning
`sampleSession`. -/
def sampleCoord : CoordState :=
  { registry := sampleRegistry, session := sampleSession }

/-- A sample inbound conversation turn. -/
def sampleTurn : ConversationTurn :=
  { sender := .user, text := "Show hotels in Paris", timestamp := 5 }

/-! ## Helper lemmas -/

/-- One non-selection action leaves the selection and pending-booking fields
of the session untouched. -/
lemma applySessionAction_preserves_selections (s : SharedState)
    (a : SessionAction) (h : isSelectionOrBookingAction a = false) :
    (applySessionAction s a).selected_flight_id = s.selected_flight_id ∧
    (applySessionAction s a).selected_hotel_id = s.selected_hotel_id ∧
    (applySessionAction s a).pending_flight_booking = s.pending_flight_booking ∧
    (applySessionAction s a).pending_hotel_booking = s.pending_hotel_booking := by
  cases a <;> simp_all [applySessionAction, isSelectionOrBookingAction]

/-- `requestCancel` leaves no entry for the session when one was registered:
the run either deregistered itself within the grace period or was forcibly
removed. -/
lemma requestCancel_frees (st : RegistryState) (sid : String) (g : Nat)
    (b : Bool) (run : ActiveRun) (h : st.runs sid = some run) :
    ((requestCancel st sid g b).2).runs sid = none := by
  cases b <;> simp [requestCancel, h, setEntry]

/-- The coordinator's `register` call always succeeds: `requestCancel` has
guaranteed the slot is free before `submitMessage` reaches step 5. -/
lemma submitMessage_isOk (cs : CoordState) (sid : String)
    (turn : ConversationTurn) (newRun : ActiveRun) (b : Bool) :
    ∃ out, submitMessage cs sid turn newRun b = Except.ok out := by
  unfold submitMessage
  cases hreg : cs.registry.runs sid with
  | none => simp [hreg, registerRun]
  | some run =>
      have hfree :=
        requestCancel_frees cs.registry sid coordinatorGracePeriodMs b run hreg
      simp [hreg, registerRun, hfree]

/-! ## The claims -/

/-- Claim C1: for every sequence of interruptions and result replacements
(indeed, of any session actions other than the explicit user selection /
booking actions) the fields `selected_flight_id`, `selected_hotel_id`,
`pending_flight_booking` and `pending_hotel_booking` are unchanged; only a
selection / booking action (or successful booking completion) changes
them. -/
theorem selection_survival (s : SharedState) (acts : List SessionAction)
    (h : ∀ a ∈ acts, isSelectionOrBookingAction a = false) :
    (applySessionActions s acts).selected_flight_id = s.selected_flight_id ∧
    (applySessionActions s acts).selected_hotel_id = s.selected_hotel_id ∧
    (applySessionActions s acts).pending_flight_booking
      = s.pending_flight_booking ∧
    (applySessionActions s acts).pending_hotel_booking
      = s.pending_hotel_booking := by
  induction acts generalizing s with
  | nil => exact ⟨rfl, rfl, rfl, rfl⟩
  | cons a rest ih =>
      have ha : isSelectionOrBookingAction a = false :=
        h a (List.mem_cons_self a rest)
      have hrest : ∀ b ∈ rest, isSelectionOrBookingAction b = false :=
        fun b hb => h b (List.mem_cons_of_mem a hb)
      have step := applySessionAction_preserves_selections s a ha
      have tail := ih (applySessionAction s a) hrest
      have heq : applySessionActions s (a :: rest)
          = applySessionActions (applySessionAction s a) rest := rfl
      rw [heq]
      exact ⟨tail.1.trans step.1, (tail.2.1).trans step.2.1,
        (tail.2.2.1).trans step.2.2.1, (tail.2.2.2).trans step.2.2.2⟩

/-- Witness for C1: an interruption, two result replacements and a second
interruption leave `sampleSession`'s selection and pending booking
untouched. -/
theorem selection_survival_witness :
    (∀ a ∈ [SessionAction.interrupt,
            SessionAction.publishFlightResults [sampleFlight],
            SessionAction.interrupt,
            SessionAction.publishHotelResults [sampleHotel]],
        isSelectionOrBookingAction a = false) ∧
    (applySessionActions sampleSession
        [SessionAction.interrupt,
         SessionAction.publishFlightResults [sampleFlight],
         SessionAction.interrupt,
         SessionAction.publishHotelResults [sampleHotel]]).selected_flight_id
      = some "F1" ∧
    (applySessionActions sampleSession
        [SessionAction.interrupt,
         SessionAction.publishFlightResults [sampleFlight],
         SessionAction.interrupt,
         SessionAction.publishHotelResults [sampleHotel]]).pending_flight_booking
      = some "BF1" := by
  have h := selection_survival sampleSession
    [SessionAction.interrupt,
     SessionAction.publishFlightResults [sampleFlight],
     SessionAction.interrupt,
     SessionAction.publishHotelResults [sampleHotel]] (by decide)
  exact ⟨by decide, h.1.trans rfl, (h.2.2.1).trans rfl⟩

/-- Claim C2: search results are replaced wholesale, never merged.  On the
backend model, publishing a run's results replaces the session's whole
result list (in particular after an interruption followed by a new run);
on the client, each `flight_results` / `hotel_results` event replaces the
entire displayed list with the event's payload. -/
theorem result_replacement (s : SharedState) (c : AppState)
    (fresh sid rid : String) (now : Nat)
    (rsB : List FlightResult) (hsB : List HotelResult) :
    (applySessionActions s
        [SessionAction.interrupt, SessionAction.startRun rid,
         SessionAction.publishFlightResults rsB]).flight_results = rsB ∧
    (applySessionActions s
        [SessionAction.interrupt, SessionAction.startRun rid,
         SessionAction.publishHotelResults hsB]).hotel_results = hsB ∧
    (applySessionAction s (SessionAction.publishFlightResults rsB)).flight_results
      = rsB ∧
    (applySessionAction s (SessionAction.publishHotelResults hsB)).hotel_results
      = hsB ∧
    (handleWebSocketMessage c fresh now
        (WsEvent.flight_results rsB sid)).flightResults = rsB ∧
    (handleWebSocketMessage c fresh now
        (WsEvent.hotel_results hsB sid)).hotelResults = hsB := by
  exact ⟨rfl, rfl, rfl, rfl, rfl, rfl⟩

/-- Claim C3: at most one active run per session.  Registering a second run
for a session whose slot a successful `register` just filled fails with
`ConflictError`; and `ConflictError` never reaches the client, since the
coordinator entry point `submitMessage` never returns it (it always frees
the slot through `requestCancel` before registering). -/
theorem at_most_one_active_run (runs runs2 : String → Option ActiveRun)
    (sid : String) (r1 r2 : ActiveRun)
    (h : registerRun runs sid r1 = Except.ok runs2) :
    registerRun runs2 sid r2 = Except.error RegError.conflict ∧
    ∀ (cs : CoordState) (turn : ConversationTurn) (newRun : ActiveRun)
      (b : Bool),
      submitMessage cs sid turn newRun b ≠ Except.error RegError.conflict := by
  constructor
  · unfold registerRun at h ⊢
    cases hrs : runs sid with
    | some r => rw [hrs] at h; exact absurd h (by simp)
    | none =>
        rw [hrs] at h
        have h2 : runs2 = setEntry runs sid (some r1) :=
          (Except.ok.injEq _ _).mp h.symm
        rw [h2]
        simp [setEntry]
  · intro cs turn newRun b
    obtain ⟨out, hout⟩ := submitMessage_isOk cs sid turn newRun b
    simp [hout]

/-- Witness for C3: with `sampleRunA` registered for `"S"`, registering
`sampleRunB` fails with `ConflictError`, while `submitMessage` for `"S"`
does not return the error. -/
theorem at_most_one_active_run_witness :
    registerRun (setEntry emptyRuns "S" (some sampleRunA)) "S" sampleRunB
      = Except.error RegError.conflict ∧
    submitMessage sampleCoord "S" sampleTurn sampleRunB true
      ≠ Except.error RegError.conflict := by
  have h := at_most_one_active_run emptyRuns
    (setEntry emptyRuns "S" (some sampleRunA)) "S" sampleRunA sampleRunB rfl
  exact ⟨h.1, h.2 sampleCoord sampleTurn sampleRunB true⟩

/-- Claim C4: `requestCancel` signals the registered run, waits at most the
grace period (2000 ms in the coordinator's call, `coordinatorGracePeriodMs`)
and returns exactly one of `no_active_run`, `cancelled_cleanly`,
`timed_out`; with no registered run the registry is unchanged; in every
case the session's slot ends free; and on timeout the entry is forcibly
removed while the run's task is not killed (`taskAlive` is untouched). -/
theorem requestCancel_contract (st : RegistryState) (sid : String) (b : Bool)
    (run : ActiveRun) (h : st.runs sid = some run) :
    coordinatorGracePeriodMs = 2000 ∧
    (∀ (st2 : RegistryState) (sid2 : String) (g2 : Nat) (b2 : Bool),
      (requestCancel st2 sid2 g2 b2).1 = CancelOutcome.no_active_run ∨
      (requestCancel st2 sid2 g2 b2).1 = CancelOutcome.cancelled_cleanly ∨
      (requestCancel st2 sid2 g2 b2).1 = CancelOutcome.timed_out) ∧
    (∀ (st2 : RegistryState) (sid2 : String) (g2 : Nat) (b2 : Bool),
      st2.runs sid2 = none →
      requestCancel st2 sid2 g2 b2 = (CancelOutcome.no_active_run, st2)) ∧
    (requestCancel st sid coordinatorGracePeriodMs true).1
      = CancelOutcome.cancelled_cleanly ∧
    (requestCancel st sid coordinatorGracePeriodMs false).1
      = CancelOutcome.timed_out ∧
    ((requestCancel st sid coordinatorGracePeriodMs b).2).runs sid = none ∧
    ((requestCancel st sid coordinatorGracePeriodMs false).2).taskAlive
        run.run_id
      = st.taskAlive run.run_id := by
  refine ⟨rfl, ?_, ?_, ?_, ?_, ?_, ?_⟩
  · intro st2 sid2 g2 b2
    cases hr : st2.runs sid2 with
    | none => simp [requestCancel, hr]
    | some r => cases b2 <;> simp [requestCancel, hr]
  · intro st2 sid2 g2 b2 hr
    simp [requestCancel, hr]
  · simp [requestCancel, h]
  · simp [requestCancel, h]
  · exact requestCancel_frees st sid coordinatorGracePeriodMs b run h
  · simp [requestCancel, h]

/-- Witness for C4: cancelling session `"S"` of `sampleRegistry` without
cooperation times out, frees the slot and leaves `sampleRunA`'s task
alive. -/
theorem requestCancel_contract_witness :
    sampleRegistry.runs "S" = some sampleRunA ∧
    (requestCancel sampleRegistry "S" coordinatorGracePeriodMs false).1
      = CancelOutcome.timed_out ∧
    ((requestCancel sampleRegistry "S" coordinatorGracePeriodMs false).2).runs
        "S" = none ∧
    ((requestCancel sampleRegistry "S" coordinatorGracePeriodMs
        false).2).taskAlive "runA" = true := by
  have h := requestCancel_contract sampleRegistry "S" false sampleRunA
    (by decide)
  refine ⟨by decide, h.2.2.2.2.1, h.2.2.2.2.2.1, ?_⟩
  exact (h.2.2.2.2.2.2).trans rfl

/-- Claim C5: when run A is registered and a new message starts run B, the
coordinator's event stream for the exchange is exactly
`status: cancelling_previous` followed by `status: processing` (so the
cancellation status is strictly before the new run's processing status),
the session's owner becomes run B, and thereafter any result publication
attempted by the stale run A is dropped: it emits no `flight_results` /
`hotel_results` event and leaves the state unchanged. -/
theorem interruption_ordering (cs : CoordState) (sid : String)
    (turn : ConversationTurn) (newRun : ActiveRun) (b : Bool)
    (runA : ActiveRun) (hreg : cs.registry.runs sid = some runA)
    (hA : runA.run_id ≠ newRun.run_id) :
    ∀ (cs2 : CoordState) (evs : List Event),
      submitMessage cs sid turn newRun b = Except.ok (cs2, evs) →
      evs = [Event.status "cancelling_previous", Event.status "processing"] ∧
      List.indexOf (Event.status "cancelling_previous") evs
        < List.indexOf (Event.status "processing") evs ∧
      cs2.session.current_run_id = some newRun.run_id ∧
      (∀ rs : List FlightResult,
        publishRunFlightResults cs2 runA.run_id rs = (cs2, [])) ∧
      (∀ hs : List HotelResult,
        publishRunHotelResults cs2 runA.run_id hs = (cs2, [])) := by
  intro cs2 evs hok
  have hfree :=
    requestCancel_frees cs.registry sid coordinatorGracePeriodMs b runA hreg
  unfold submitMessage at hok
  rw [hreg] at hok
  simp only [registerRun, hfree] at hok
  obtain ⟨hcs2, hevs⟩ := Prod.mk.injEq .. ▸ (Except.ok.injEq _ _).mp hok.symm
  constructor
  · exact hevs
  constructor
  · rw [hevs]; decide
  have hrun : cs2.session.current_run_id = some newRun.run_id := by
    rw [hcs2]
  have hne : ¬ cs2.session.current_run_id = some runA.run_id := by
    rw [hrun]
    simp only [Option.some.injEq]
    exact fun e => hA (Eq.symm e)
  refine ⟨hrun, ?_, ?_⟩
  · intro rs
    simp [publishRunFlightResults, hne]
  · intro hs
    simp [publishRunHotelResults, hne]

/-- Witness for C5: interrupting `sampleCoord`'s run A with `sampleRunB`
publishes `cancelling_previous` then `processing`, and a stale flight
publication by run A afterwards emits nothing. -/
theorem interruption_ordering_witness :
    sampleCoord.registry.runs "S" = some sampleRunA ∧
    sampleRunA.run_id ≠ sampleRunB.run_id ∧
    ∀ (cs2 : CoordState) (evs : List Event),
      submitMessage sampleCoord "S" sampleTurn sampleRunB true
        = Except.ok (cs2, evs) →
      evs = [Event.status "cancelling_previous", Event.status "processing"] ∧
      publishRunFlightResults cs2 "runA" [sampleFlight] = (cs2, []) := by
  refine ⟨by decide, by decide, ?_⟩
  intro cs2 evs hok
  have h := interruption_ordering sampleCoord "S" sampleTurn sampleRunB true
    sampleRunA (by decide) (by decide) cs2 evs hok
  exact ⟨h.1, h.2.2.2.1 [sampleFlight]⟩

/-- Claim C6: a single collaborator failure on a combined request is
absorbed: the failed stage's result set is published with every entry
marked `is_partial = true` and no `error` event is emitted; only when both
stages fail is a single `error` event published instead of an empty
success; and on receiving an `error` event the client appends an explicit
`"Error: ..."` assistant message to the conversation rather than hanging
silently. -/
theorem collaborator_failure_absorbed (fp fs : List FlightResult)
    (hp hs : List HotelResult) (c : AppState) (fresh sid msg : String)
    (now : Nat) :
    combinedRunEvents (StageOutcome.failed fp) (StageOutcome.failed hp)
      = [Event.error combinedFailureMessage] ∧
    combinedRunEvents (StageOutcome.failed fp) (StageOutcome.ok hs)
      = [Event.flight_results (markPartialFlights fp),
         Event.hotel_results hs] ∧
    combinedRunEvents (StageOutcome.ok fs) (StageOutcome.failed hp)
      = [Event.flight_results fs,
         Event.hotel_results (markPartialHotels hp)] ∧
    (markPartialFlights fp).all
      (fun r => (FlightResult.isPartial r).getD false) = true ∧
    (markPartialHotels hp).all
      (fun r => (HotelResult.isPartial r).getD false) = true ∧
    (combinedRunEvents (StageOutcome.failed fp) (StageOutcome.ok hs)).all
      (fun e => !(Event.isError e)) = true ∧
    (combinedRunEvents (StageOutcome.ok fs) (StageOutcome.failed hp)).all
      (fun e => !(Event.isError e)) = true ∧
    (handleWebSocketMessage c fresh now (WsEvent.error msg sid)).messages
      = c.messages ++
          [{ id := fresh, sender := Sender.assistant,
             text := "Error: " ++ msg, timestamp := now }] := by
  refine ⟨rfl, rfl, rfl, ?_, ?_, ?_, ?_, rfl⟩
  · simp [markPartialFlights, List.all_eq_true]
  · simp [markPartialHotels, List.all_eq_true]
  · simp [combinedRunEvents, Event.isError]
  · simp [combinedRunEvents, Event.isError]

/-- Counterexample for C7: the client's `WebSocketEvent` union in `types.ts`
declares an eighth event kind, `echo`, beyond the seven the claim lists, so
the set of declared kinds is not exactly the claimed seven. -/
theorem event_kinds_cex :
    eventKind (WsEvent.echo "ping") = "echo" ∧
    "echo" ∈ webSocketEventKinds ∧
    "echo" ∉ specEventKinds ∧
    webSocketEventKinds ≠ specEventKinds := by
  decide

/-- Claim C7 (amended): the event kinds the client's push-channel union
declares are exactly `status`, `message`, `flight_results`,
`hotel_results`, `error`, `preference_update`, `preferences_cleared` plus
the additional `echo` kind (which the client handler leaves to the
unhandled default branch); every event's kind is in that list; and the
status values the client renders a badge for are exactly `processing`,
`cancelling_previous`, `cancelled` and `completed`. -/
theorem event_kinds_amended :
    webSocketEventKinds = specEventKinds ++ ["echo"] ∧
    (∀ e : WsEvent, eventKind e ∈ webSocketEventKinds) ∧
    (∀ s : String,
      (getStatusBadge s).isSome = true ↔ s ∈ specStatusValues) := by
  refine ⟨rfl, ?_, ?_⟩
  · intro e
    cases e <;> simp [eventKind, webSocketEventKinds]
  · intro s
    unfold getStatusBadge specStatusValues
    split_ifs with h1 h2 h3 h4 <;> simp_all

/-- Claim C8: clearing preferences is idempotent.  The clear endpoint on
one session empties the learned preference set and returns without error;
calling it again on the already-cleared session succeeds again (no error)
and yields the empty set again. -/
theorem clear_preferences_idempotent (s : SharedState) :
    clearPreferencesEndpoint s
      = Except.ok ({ s with user_preferences := [] },
          Event.preferences_cleared) ∧
    ({ s with user_preferences := [] } : SharedState).user_preferences = [] ∧
    clearPreferencesEndpoint { s with user_preferences := [] }
      = Except.ok ({ s with user_preferences := [] },
          Event.preferences_cleared) := by
  exact ⟨rfl, rfl, rfl⟩

/-- Claim C9: a push-channel `message` event is appended to the visible
conversation exactly when its sender is `assistant` (the identifier kept is
the event's truthy `request_id`, else the freshly minted one); a `message`
event with sender `user` leaves the client state unchanged (silently
dropped); the user's own messages are instead added locally at send time by
`handleSendMessage`. -/
theorem assistant_message_filter (c : AppState) (fresh text sid : String)
    (now : Nat) (request_id : Option String) :
    (handleWebSocketMessage c fresh now
        (WsEvent.message Sender.assistant text sid request_id)).messages
      = c.messages ++
          [{ id := (match request_id with
                    | some r => if r = "" then fresh else r
                    | none => fresh),
             sender := Sender.assistant, text := text, timestamp := now }] ∧
    handleWebSocketMessage c fresh now
        (WsEvent.message Sender.user text sid request_id) = c ∧
    (handleSendMessage c fresh now text).messages
      = c.messages ++
          [{ id := fresh, sender := Sender.user, text := text,
             timestamp := now }] := by
  exact ⟨rfl, rfl, rfl⟩

/-- Claim C10: for a non-empty rendered result list the list-level PARTIAL
RESULTS indicator is shown exactly when the first element's `is_partial`
flag is truthy; the flags of the elements after the first do not affect the
list-level indicator (changing the tail changes nothing), while each card
still shows its own per-card PARTIAL badge from its own flag. -/
theorem partial_header_from_first (r : FlightResult)
    (rest rest2 : List FlightResult) (ht : HotelResult)
    (hrest hrest2 : List HotelResult) :
    flightPartialHeaderShown [] = false ∧
    flightPartialHeaderShown (r :: rest)
      = (FlightResult.isPartial r).getD false ∧
    flightPartialHeaderShown (r :: rest)
      = flightPartialHeaderShown (r :: rest2) ∧
    hotelPartialHeaderShown (ht :: hrest)
      = (HotelResult.isPartial ht).getD false ∧
    hotelPartialHeaderShown (ht :: hrest)
      = hotelPartialHeaderShown (ht :: hrest2) ∧
    cardPartialShown r = (FlightResult.isPartial r).getD false := by
  exact ⟨rfl, rfl, rfl, rfl, rfl, rfl⟩

end Travel
